import Mathlib

/-!
Verification of the SSG celestial-system renderer core against its
natural-language specification.

The TypeScript sources are shallowly embedded: JS `number` arithmetic is
modelled exactly on the rationals, with an explicit four-constructor type
`JSNum` (finite / +Infinity / -Infinity / NaN) where the NaN and Infinity
propagation of JS matters (the float comparator).  Stateful classes become
structures with explicit state-passing functions; callback invocation is
recorded in explicit traces.
-/

namespace SSG

/-- Model of a JS `number` for the float-comparator code: a finite value is
an exact rational (rounding of IEEE doubles is abstracted away), and the
three non-finite values are explicit constructors so that JS NaN/Infinity
propagation and comparison semantics can be modelled faithfully. -/
inductive JSNum where
  | fin (q : ℚ)
  | posInf
  | negInf
  | nan
deriving DecidableEq, Repr

namespace JSNum

/-- JS `Number.isFinite`. -/
def isFinite : JSNum → Bool
  | fin _ => true
  | _ => false

/-- JS strict equality on numbers: `NaN === NaN` is `false`. -/
def strictEq : JSNum → JSNum → Bool
  | fin a, fin b => decide (a = b)
  | posInf, posInf => true
  | negInf, negInf => true
  | _, _ => false

/-- JS `<` on numbers: any comparison involving NaN is `false`. -/
def lt : JSNum → JSNum → Bool
  | fin a, fin b => decide (a < b)
  | fin _, posInf => true
  | negInf, fin _ => true
  | negInf, posInf => true
  | _, _ => false

/-- JS `<=` on numbers: any comparison involving NaN is `false`. -/
def le : JSNum → JSNum → Bool
  | fin a, fin b => decide (a ≤ b)
  | fin _, posInf => true
  | negInf, fin _ => true
  | negInf, posInf => true
  | posInf, posInf => true
  | negInf, negInf => true
  | _, _ => false

/-- JS `>` on numbers: any comparison involving NaN is `false`. -/
def gt (a b : JSNum) : Bool := lt b a

/-- JS unary minus. -/
def neg : JSNum → JSNum
  | fin a => fin (-a)
  | posInf => negInf
  | negInf => posInf
  | nan => nan

/-- JS `Math.max`: NaN if either argument is NaN, otherwise the larger. -/
def max : JSNum → JSNum → JSNum
  | nan, _ => nan
  | _, nan => nan
  | posInf, _ => posInf
  | _, posInf => posInf
  | negInf, b => b
  | a, negInf => a
  | fin a, fin b => fin (Max.max a b)

/-- JS `Math.min`: NaN if either argument is NaN, otherwise the smaller. -/
def min : JSNum → JSNum → JSNum
  | nan, _ => nan
  | _, nan => nan
  | negInf, _ => negInf
  | _, negInf => negInf
  | posInf, b => b
  | a, posInf => a
  | fin a, fin b => fin (Min.min a b)

/-- JS `Math.abs`. -/
def abs : JSNum → JSNum
  | fin a => fin |a|
  | posInf => posInf
  | negInf => posInf
  | nan => nan

/-- JS subtraction with NaN/Infinity propagation; finite subtraction is
exact in this model. -/
def sub : JSNum → JSNum → JSNum
  | nan, _ => nan
  | _, nan => nan
  | posInf, posInf => nan
  | negInf, negInf => nan
  | posInf, _ => posInf
  | negInf, _ => negInf
  | fin _, posInf => negInf
  | fin _, negInf => posInf
  | fin a, fin b => fin (a - b)

/-- JS division with the JS special cases: `0/0 = NaN`, a nonzero finite
value divided by zero gives a signed Infinity, division by an Infinity
gives 0, `Infinity/Infinity = NaN`.  (The model has a single zero, standing
for JS `+0`.) -/
def div : JSNum → JSNum → JSNum
  | nan, _ => nan
  | _, nan => nan
  | posInf, fin b => if b < 0 then negInf else posInf
  | negInf, fin b => if b < 0 then posInf else negInf
  | posInf, _ => nan
  | negInf, _ => nan
  | fin _, posInf => fin 0
  | fin _, negInf => fin 0
  | fin a, fin b =>
      if b = 0 then (if a = 0 then nan else if 0 < a then posInf else negInf)
      else fin (a / b)

end JSNum

namespace Utils

/-- Source: `Utils.SimpleFloatEQ` — if either value is non-finite, the
result of JS `===` on them; `false` for two finite values. -/
def SimpleFloatEQ (value1 value2 : JSNum) : Bool :=
  if !value1.isFinite || !value2.isFinite then
    value1.strictEq value2
  else
    false

/-- Source: `Utils.FloatEQDivisor` — `max` of the values, falling back to
`min` when the max is `0`, then made non-negative. -/
def FloatEQDivisor (value1 value2 : JSNum) : JSNum :=
  let divisor := JSNum.max value1 value2
  let divisor := if divisor.strictEq (.fin 0) then JSNum.min value1 value2 else divisor
  if divisor.lt (.fin 0) then divisor.neg else divisor

/-- Source: `Utils.FloatingPointEqualityEpsilon = Number.EPSILON * 100`,
i.e. `2 ^ (-52) * 100`. -/
def FloatingPointEqualityEpsilon : ℚ := 100 / 2 ^ 52

/-- Source: `Utils.FloatEQ` with its epsilon parameter explicit (the source
defaults it to `FloatingPointEqualityEpsilon`). -/
def FloatEQ (value1 value2 : JSNum) (epsilon : ℚ) : Bool :=
  if SimpleFloatEQ value1 value2 then
    true
  else
    ((value1.sub value2).abs.div (FloatEQDivisor value1 value2)).le (.fin epsilon)

/-- Source: `Utils.FloatNE`. -/
def FloatNE (value1 value2 : JSNum) (epsilon : ℚ) : Bool :=
  !FloatEQ value1 value2 epsilon

/-- Source: `Utils.FloatLT`. -/
def FloatLT (value1 value2 : JSNum) (epsilon : ℚ) : Bool :=
  if SimpleFloatEQ value1 value2 then
    false
  else
    ((value1.sub value2).div (FloatEQDivisor value1 value2)).lt (.fin (-epsilon))

/-- Source: `Utils.FloatGT`. -/
def FloatGT (value1 value2 : JSNum) (epsilon : ℚ) : Bool :=
  if SimpleFloatEQ value1 value2 then
    false
  else
    ((value1.sub value2).div (FloatEQDivisor value1 value2)).gt (.fin epsilon)

/-- JS truncating conversion used by the `%` operator: round toward zero. -/
def jsTrunc (q : ℚ) : ℤ := if 0 ≤ q then ⌊q⌋ else ⌈q⌉

/-- JS `%` (remainder) on finite numbers with a nonzero divisor: the
result has the sign of the dividend, `a % b = a - b * trunc (a / b)`. -/
def jsRem (a b : ℚ) : ℚ := a - b * (jsTrunc (a / b) : ℚ)

/-- Source: `Utils.clampDegrees` — `angle % 360`, plus `360` if negative. -/
def clampDegrees (angle : ℚ) : ℚ :=
  let retval := jsRem angle 360
  if retval < 0 then retval + 360 else retval

lemma jsTrunc_of_nonneg (q : ℚ) (h : 0 ≤ q) : jsTrunc q = ⌊q⌋ := by
  unfold jsTrunc
  exact if_pos h

lemma jsTrunc_of_neg (q : ℚ) (h : ¬ 0 ≤ q) : jsTrunc q = ⌈q⌉ := by
  unfold jsTrunc
  exact if_neg h

lemma clampDegrees_eq (a : ℚ) : clampDegrees a = 360 * Int.fract (a / 360) := by
  have hcd : clampDegrees a =
      if jsRem a 360 < 0 then jsRem a 360 + 360 else jsRem a 360 := rfl
  have hrem0 : jsRem a 360 = a - 360 * ((jsTrunc (a / 360) : ℤ) : ℚ) := rfl
  set x := a / 360 with hxdef
  have hax : a = 360 * x := by rw [hxdef]; field_simp
  have hfr0 : 0 ≤ Int.fract x := Int.fract_nonneg x
  have hfr1 : Int.fract x < 1 := Int.fract_lt_one x
  have hfr : Int.fract x = x - ⌊x⌋ := rfl
  by_cases h : 0 ≤ x
  · have hrem : jsRem a 360 = 360 * Int.fract x := by
      rw [hrem0, jsTrunc_of_nonneg x h, hfr, hax]
      ring
    rw [hcd, hrem, if_neg (by nlinarith)]
  · by_cases hz : Int.fract x = 0
    · have hxint : x = (⌊x⌋ : ℚ) := by rw [hfr] at hz; linarith
      have hceil : ⌈x⌉ = ⌊x⌋ := by
        rw [show x = ((⌊x⌋ : ℤ) : ℚ) from hxint, Int.ceil_intCast, Int.floor_intCast]
      have hrem : jsRem a 360 = 0 := by
        rw [hrem0, jsTrunc_of_neg x h, hceil, hax]
        nlinarith [hxint]
      rw [hcd, hrem, hz]
      norm_num
    · have hlt : (⌊x⌋ : ℚ) < x := by
        rcases lt_or_eq_of_le (Int.floor_le x) with h1 | h1
        · exact h1
        · exact absurd (by rw [hfr]; linarith [h1]) hz
      have hceil : ⌈x⌉ = ⌊x⌋ + 1 := by
        have h7 : ⌈x⌉ ≤ ⌊x⌋ + 1 := by
          apply Int.ceil_le.mpr
          push_cast
          linarith [Int.lt_floor_add_one x]
        have h8 : ⌊x⌋ < ⌈x⌉ := by
          have h9 : (⌊x⌋ : ℚ) < (⌈x⌉ : ℚ) := lt_of_lt_of_le hlt (Int.le_ceil x)
          exact_mod_cast h9
        omega
      have hrem : jsRem a 360 = 360 * Int.fract x - 360 := by
        rw [hrem0, jsTrunc_of_neg x h, hceil, hfr, hax]
        push_cast
        ring
      rw [hcd, hrem, if_pos (by nlinarith)]
      ring

lemma clampDegrees_nonneg (a : ℚ) : 0 ≤ clampDegrees a := by
  rw [clampDegrees_eq]
  exact mul_nonneg (by norm_num) (Int.fract_nonneg _)

lemma clampDegrees_lt (a : ℚ) : clampDegrees a < 360 := by
  rw [clampDegrees_eq]
  have : Int.fract (a / 360) < 1 := Int.fract_lt_one _
  nlinarith

lemma clampDegrees_add_int_mul (a : ℚ) (k : ℤ) :
    clampDegrees (a + 360 * k) = clampDegrees a := by
  rw [clampDegrees_eq, clampDegrees_eq]
  have h : (a + 360 * k) / 360 = a / 360 + k := by
    field_simp
    ring
  rw [h, Int.fract_add_int]

lemma clampDegrees_clampDegrees_add (x y : ℚ) :
    clampDegrees (clampDegrees x + y) = clampDegrees (x + y) := by
  have hx : clampDegrees x = x - 360 * ⌊x / 360⌋ := by
    rw [clampDegrees_eq, Int.fract]
    field_simp
  have : clampDegrees x + y = (x + y) + 360 * (-⌊x / 360⌋ : ℤ) := by
    rw [hx]
    push_cast
    ring
  rw [this, clampDegrees_add_int_mul]

end Utils

/-- Model of the state of a `THREE.Object3D` transform node relevant to the
verified code: the position components written by `Utils.setPosition`. -/
structure Object3D where
  posX : ℚ
  posY : ℚ
  posZ : ℚ
deriving DecidableEq, Repr

/-- Source: `Utils.setPosition` (numeric-components overload) — writes the
x/y/z position of the node. -/
def Utils.setPosition (object3d : Object3D) (x y z : ℚ) : Object3D :=
  { object3d with posX := x, posY := y, posZ := z }

/-- Source: class `Orbiter`.  `orbitCurve` abstracts
`THREE.EllipseCurve.getPointAt` on the precomputed ellipse as a function
from the curve parameter to a 2D point (its trigonometric internals are
external to the verified core). -/
structure Orbiter where
  threeObject : Object3D
  orbitCurve : ℚ → ℚ × ℚ
  initialAngle : ℚ
  angVelDegPerSecond : ℚ
  currentAngle : ℚ

/-- Source: `Orbiter.updatePosition` — advances `currentAngle` by
`angVelDegPerSecond * elapsedSeconds`, clamps it into [0, 360), and places
the owned node at the curve point for `currentAngle / 360`. -/
def Orbiter.updatePosition (o : Orbiter) (elapsedSeconds : ℚ) : Orbiter :=
  let currentAngle := Utils.clampDegrees (o.currentAngle + o.angVelDegPerSecond * elapsedSeconds)
  let objectPosition := o.orbitCurve (currentAngle / 360)
  { o with
    currentAngle := currentAngle
    threeObject := Utils.setPosition o.threeObject objectPosition.1 objectPosition.2 0 }

/-- Claim C1: for every Orbiter (hence every angular velocity and starting
angle) and every elapsed-seconds value, after `updatePosition` the
`currentAngle` lies in the half-open interval [0, 360); moreover
`clampDegrees` always returns a value that is nonnegative and strictly
below 360. -/
theorem claim_C1_currentAngle_in_range (o : Orbiter) (elapsedSeconds : ℚ) :
    (0 ≤ (o.updatePosition elapsedSeconds).currentAngle ∧
      (o.updatePosition elapsedSeconds).currentAngle < 360) ∧
    ∀ a : ℚ, 0 ≤ Utils.clampDegrees a ∧ Utils.clampDegrees a < 360 :=
  ⟨⟨Utils.clampDegrees_nonneg _, Utils.clampDegrees_lt _⟩,
    fun a => ⟨Utils.clampDegrees_nonneg a, Utils.clampDegrees_lt a⟩⟩

/-- Claim C8: for every Orbiter and all elapsed times t1 and t2, calling
`updatePosition t1` and then `updatePosition t2` leaves the same final
`currentAngle` as the single call `updatePosition (t1 + t2)` from the same
starting state. -/
theorem claim_C8_updatePosition_additive (o : Orbiter) (t1 t2 : ℚ) :
    ((o.updatePosition t1).updatePosition t2).currentAngle =
      (o.updatePosition (t1 + t2)).currentAngle := by
  show Utils.clampDegrees
      (Utils.clampDegrees (o.currentAngle + o.angVelDegPerSecond * t1)
        + o.angVelDegPerSecond * t2)
    = Utils.clampDegrees (o.currentAngle + o.angVelDegPerSecond * (t1 + t2))
  rw [Utils.clampDegrees_clampDegrees_add]
  congr 1
  ring

/-- Claim C2, the comparator code evaluated at the failing input: at
`value1 = value2 = 0` — a finite input — `FloatEQDivisor` returns `0`
(contradicting its own documentation that the divisor is always positive),
so `FloatEQ` computes `0 / 0 = NaN` and returns `false` at the default
epsilon, and none of `FloatLT` / `FloatEQ` / `FloatGT` holds at `(0, 0)`.
The NaN part of the claim does hold: `FloatEQ NaN NaN` is `false`. -/
theorem claim_C2_comparator_at_zero_zero :
    Utils.FloatEQ (.fin 0) (.fin 0) Utils.FloatingPointEqualityEpsilon = false ∧
    Utils.FloatLT (.fin 0) (.fin 0) Utils.FloatingPointEqualityEpsilon = false ∧
    Utils.FloatGT (.fin 0) (.fin 0) Utils.FloatingPointEqualityEpsilon = false ∧
    Utils.FloatEQDivisor (.fin 0) (.fin 0) = .fin 0 ∧
    Utils.FloatEQ .nan .nan Utils.FloatingPointEqualityEpsilon = false := by
  refine ⟨?_, ?_, ?_, ?_, ?_⟩ <;>
    norm_num [Utils.FloatEQ, Utils.FloatLT, Utils.FloatGT, Utils.SimpleFloatEQ,
      Utils.FloatEQDivisor, Utils.FloatingPointEqualityEpsilon,
      JSNum.sub, JSNum.abs, JSNum.div, JSNum.le, JSNum.lt, JSNum.gt,
      JSNum.max, JSNum.min, JSNum.neg, JSNum.strictEq, JSNum.isFinite]

/-- Source: `ssg.settings.ts` grid-type constant. -/
def GRID_TYPE_RECTANGULAR : String := "Rectangular"

/-- Source: `ssg.settings.ts` grid-type constant. -/
def GRID_TYPE_POLAR : String := "Polar"

/-- Source: `ssg.settings.ts` grid-type constant. -/
def GRID_TYPE_NONE : String := "None"

/-- Source: class `SSGSettings` — the flat settings snapshot with the
source's field initializers as defaults.  The derived
`DirectionalLightPositionVec3` getter (a JSON parse of the stored string)
is omitted; the stored `DirectionalLightPosition` string is kept. -/
structure SSGSettings where
  AmbientLightColor : String := "#ff00ff"
  AmbientLightIntensity : ℚ := 1
  OrbitalColor : String := "#00ffff"
  IncludeDirectionalLight : Bool := false
  DirectionalLightColor : String := "#00ff00"
  DirectionalLightIntensity : ℚ := 0
  DirectionalLightPosition : String := "[0, 0, 0]"
  FieldOfViewDegrees : ℚ := 90
  ViewAngleXDegrees : ℚ := 0
  ViewAngleYDegrees : ℚ := 0
  ViewAngleZDegrees : ℚ := 0
  Animate : Bool := false
  AnimationSpeed : ℚ := 0
  AnimationTimeScale : ℚ := 0
  AnimationTimeScaleHuman : String := ""
  GridType : String := GRID_TYPE_NONE
  GridSizeFactor : ℚ := 1
  GridMajorDivisions : ℚ := 3
  GridMajorColor : String := "#00ff00"
  GridMinorDivisions : ℚ := 3
  GridMinorColor : String := "#ff0000"
  PlanetScale : ℚ := 1
  StarScale : ℚ := 1
  Zoom : ℚ := 1
  ResetOrbitControls : Bool := false
deriving DecidableEq, Repr

/-- Source: `EmptySettings = new SSGSettings({})` — all defaults. -/
def EmptySettings : SSGSettings := {}

/-- Source: class `SettingsManagerImpl` — the Settings Bus state.
Subscribed reactions are represented by identifiers (ℕ). -/
structure SettingsManagerImpl where
  CurrentSettings : SSGSettings := EmptySettings
  PrevSettings : SSGSettings := EmptySettings
  settingsCallbacks : List ℕ := []
deriving DecidableEq, Repr

/-- Source: `SettingsManagerImpl.publishSettings` — moves Current to Prev,
stores the new snapshot, then invokes every subscribed callback in list
order with the new snapshot.  The returned trace records the invocations
(callback id, snapshot passed) in invocation order. -/
def publishSettings (m : SettingsManagerImpl) (newSettings : SSGSettings) :
    SettingsManagerImpl × List (ℕ × SSGSettings) :=
  ({ CurrentSettings := newSettings, PrevSettings := m.CurrentSettings,
     settingsCallbacks := m.settingsCallbacks },
   m.settingsCallbacks.map (fun nextCB => (nextCB, newSettings)))

/-- Source: `SettingsManagerImpl.subscribeSettings` — appends the callback
to the ordered list if it is truthy; a null/undefined callback (modelled
as `none`) is ignored. -/
def subscribeSettings (m : SettingsManagerImpl) (settingsCB : Option ℕ) :
    SettingsManagerImpl :=
  match settingsCB with
  | some cb => { m with settingsCallbacks := m.settingsCallbacks ++ [cb] }
  | none => m

/-- Source: `SettingsManagerImpl.clearSettingsSubscriptions` — empties the
callback list. -/
def clearSettingsSubscriptions (m : SettingsManagerImpl) : SettingsManagerImpl :=
  { m with settingsCallbacks := [] }

/-- Helper: subscribe a list of (non-null) callbacks in order. -/
def subscribeAll (m : SettingsManagerImpl) (cbs : List ℕ) : SettingsManagerImpl :=
  cbs.foldl (fun acc cb => subscribeSettings acc (some cb)) m

lemma subscribeAll_callbacks (cbs : List ℕ) (m : SettingsManagerImpl) :
    (subscribeAll m cbs).settingsCallbacks = m.settingsCallbacks ++ cbs := by
  induction cbs generalizing m with
  | nil => simp [subscribeAll]
  | cons c rest ih =>
    simp [subscribeAll, subscribeSettings] at ih ⊢
    rw [ih]
    simp

lemma trace_filter_not_mem (cbs : List ℕ) (s : SSGSettings) (r : ℕ) (h : r ∉ cbs) :
    (cbs.map (fun cb => (cb, s))).filter (fun ev => ev.1 == r) = [] := by
  induction cbs with
  | nil => rfl
  | cons c rest ih =>
    have h1 : r ∉ rest := fun hr => h (List.mem_cons_of_mem _ hr)
    have h2 : (c == r) = false :=
      beq_eq_false_iff_ne.mpr (fun hh => h (hh ▸ List.mem_cons_self c rest))
    simp [List.filter_cons, h2, ih h1]

/-- Claim C3: on the Settings Bus, publishing snapshot A and then snapshot
B invokes a reaction subscribed before A with A and then with B, in
subscription order relative to the other reactions (the two publish traces
are exactly the callback list in order); a reaction subscribed after A's
publish and before B's is invoked only with B; and after
`clearSettingsSubscriptions`, no previously subscribed reaction is invoked
by any later publish, whatever is re-subscribed afterwards. -/
theorem claim_C3_settings_bus_ordering
    (m : SettingsManagerImpl) (A B : SSGSettings) (r rNew : ℕ)
    (hr : r ∈ m.settingsCallbacks) (hnew : rNew ∉ m.settingsCallbacks) :
    (publishSettings m A).2 = m.settingsCallbacks.map (fun cb => (cb, A)) ∧
    (publishSettings (subscribeSettings (publishSettings m A).1 (some rNew)) B).2
      = (m.settingsCallbacks ++ [rNew]).map (fun cb => (cb, B)) ∧
    (r, A) ∈ (publishSettings m A).2 ∧
    (r, B) ∈ (publishSettings (subscribeSettings (publishSettings m A).1 (some rNew)) B).2 ∧
    ((publishSettings m A).2
        ++ (publishSettings (subscribeSettings (publishSettings m A).1 (some rNew)) B).2).filter
        (fun ev => ev.1 == rNew) = [(rNew, B)] ∧
    (∀ (m2 : SettingsManagerImpl) (C : SSGSettings) (newSubs : List ℕ), r ∉ newSubs →
      (publishSettings (subscribeAll (clearSettingsSubscriptions m2) newSubs) C).2.filter
        (fun ev => ev.1 == r) = []) := by
  refine ⟨rfl, rfl, ?_, ?_, ?_, ?_⟩
  · exact List.mem_map.mpr ⟨r, hr, rfl⟩
  · exact List.mem_map.mpr ⟨r, List.mem_append_left _ hr, rfl⟩
  · show ((m.settingsCallbacks.map fun cb => (cb, A))
        ++ (m.settingsCallbacks ++ [rNew]).map (fun cb => (cb, B))).filter
        (fun ev => ev.1 == rNew) = [(rNew, B)]
    rw [List.filter_append, trace_filter_not_mem _ _ _ hnew, List.map_append,
      List.filter_append, trace_filter_not_mem _ _ _ hnew]
    simp
  · intro m2 C newSubs hnotin
    show ((subscribeAll (clearSettingsSubscriptions m2) newSubs).settingsCallbacks.map
        (fun cb => (cb, C))).filter (fun ev => ev.1 == r) = []
    rw [subscribeAll_callbacks]
    exact trace_filter_not_mem _ _ _ (by simpa [clearSettingsSubscriptions] using hnotin)

/-- Concrete bus used in witnesses and counterexamples: two subscribed
reactions, ids 5 and 7. -/
def demoBus : SettingsManagerImpl := { settingsCallbacks := [5, 7] }

/-- Concrete snapshot distinct from `EmptySettings` (Zoom 2). -/
def demoSettingsB : SSGSettings := { Zoom := 2 }

/-- Witness for claim C3 at a concrete bus: reaction 5 is subscribed,
reaction 9 is not, and 9 — subscribed between the publish of A and of B —
is invoked exactly once, with B. -/
theorem claim_C3_witness :
    (5 ∈ demoBus.settingsCallbacks) ∧ (9 ∉ demoBus.settingsCallbacks) ∧
    ((publishSettings demoBus EmptySettings).2
        ++ (publishSettings
              (subscribeSettings (publishSettings demoBus EmptySettings).1 (some 9))
              demoSettingsB).2).filter (fun ev => ev.1 == 9)
      = [(9, demoSettingsB)] :=
  ⟨by decide, by decide,
    (claim_C3_settings_bus_ordering demoBus EmptySettings demoSettingsB 5 9
      (by decide) (by decide)).2.2.2.2.1⟩

/-- Claim C10: subscribing a null/undefined callback leaves the
subscription list unchanged, and a later publish invokes exactly the
reactions subscribed before, in the same order. -/
theorem claim_C10_null_subscribe_noop (m : SettingsManagerImpl) (s : SSGSettings) :
    subscribeSettings m none = m ∧
    (publishSettings (subscribeSettings m none) s).2
      = m.settingsCallbacks.map (fun cb => (cb, s)) :=
  ⟨rfl, rfl⟩

/-- Model of the publish loop when reactions may throw: `beh cb s = true`
means callback `cb` throws when invoked with snapshot `s`.  The source
loop `for (const nextCB of this.settingsCallbacks) { nextCB(newSettings) }`
has no try/catch, so the JS exception aborts the loop at the first
throwing callback.  Returns the callbacks that were invoked (the throwing
one is entered, hence recorded) and whether an exception escaped. -/
def runCallbacks (beh : ℕ → SSGSettings → Bool) (cbs : List ℕ) (s : SSGSettings) :
    List ℕ × Bool :=
  match cbs with
  | [] => ([], false)
  | cb :: rest =>
    if beh cb s then ([cb], true)
    else
      let r := runCallbacks beh rest s
      (cb :: r.1, r.2)

/-- Concrete reaction behaviour: reaction 1 throws, all others succeed. -/
def demoBeh : ℕ → SSGSettings → Bool := fun cb _ => cb == 1

/-- Claim C4 counterexample: with subscribed reactions [0, 1, 2] where
reaction 1 throws, the publish loop invokes only [0, 1]; reaction 2, which
is subscribed after the throwing reaction, is never invoked with the
snapshot — contradicting the claim that every later reaction still runs. -/
theorem claim_C4_counterexample :
    runCallbacks demoBeh [0, 1, 2] EmptySettings = ([0, 1], true) ∧
    2 ∉ (runCallbacks demoBeh [0, 1, 2] EmptySettings).1 := by
  constructor
  · decide
  · decide

/-- Claim C4 amended: if a reaction throws during a publish, the reactions
before it in the list are invoked, the throwing reaction is entered, and
no reaction after it is invoked — the publish aborts with the exception
escaping (there is no per-reaction isolation). -/
theorem claim_C4_amended_publish_aborts
    (beh : ℕ → SSGSettings → Bool) (s : SSGSettings) (pre : List ℕ) (t : ℕ) (post : List ℕ)
    (hpre : ∀ c ∈ pre, beh c s = false) (ht : beh t s = true) :
    runCallbacks beh (pre ++ t :: post) s = (pre ++ [t], true) ∧
    ∀ c ∈ post, c ∉ pre → c ≠ t → c ∉ (runCallbacks beh (pre ++ t :: post) s).1 := by
  have key : runCallbacks beh (pre ++ t :: post) s = (pre ++ [t], true) := by
    induction pre with
    | nil => simp [runCallbacks, ht]
    | cons c rest ih =>
      have hc : beh c s = false := hpre c (List.mem_cons_self c rest)
      have hrest : ∀ x ∈ rest, beh x s = false := fun x hx => hpre x (List.mem_cons_of_mem _ hx)
      simp [runCallbacks, hc, ih hrest]
  refine ⟨key, ?_⟩
  intro c _ hcpre hct
  rw [key]
  simp [hcpre, hct]

/-- Witness for the amended claim C4 at a concrete input: reactions
[0, 1, 2] with reaction 1 throwing — reaction 0 does not throw, reaction 1
does, and the publish loop returns ([0, 1], exception escaped). -/
theorem claim_C4_amended_witness :
    (∀ c ∈ [0], demoBeh c EmptySettings = false) ∧
    demoBeh 1 EmptySettings = true ∧
    runCallbacks demoBeh ([0] ++ 1 :: [2]) EmptySettings = ([0] ++ [1], true) :=
  ⟨by decide, by decide,
    (claim_C4_amended_publish_aborts demoBeh EmptySettings [0] 1 [2]
      (by decide) (by decide)).1⟩

/-- The animation-clock state of `SSGRenderer` mutated by
`updateAnimation`: the three time fields (all undefined until the first
frame after a render) and the registered orbiters. -/
structure RendererAnim where
  actualStartTime : Option ℚ
  lastActualTime : Option ℚ
  simTime : Option ℚ
  orbiters : List Orbiter

/-- Source: `SSGRenderer.updateAnimation` (variant 2, lines 841-921 of the
combined renderer file): runs unconditionally — `Animate` is never
consulted; `speedScale` starts at 0 and becomes `AnimationTimeScale` when
`FloatNE(AnimationSpeed, 0)`; the per-frame simulated elapsed seconds is
real elapsed times `speedScale`, accumulated into `simTime` and fed to
every registered orbiter.  `current` is the bus's `CurrentSettings`. -/
def updateAnimationV2 (current : SSGSettings) (st : RendererAnim) (actualMillis : ℚ) :
    RendererAnim :=
  let actualTime := actualMillis / 1000
  let actualStartTime := st.actualStartTime.getD actualTime
  let lastActualTime := st.lastActualTime.getD actualTime
  let simTime0 := st.simTime.getD 0
  let speedScale : ℚ :=
    if Utils.FloatNE (.fin current.AnimationSpeed) (.fin 0) Utils.FloatingPointEqualityEpsilon
    then current.AnimationTimeScale else 0
  let actualElapsedSeconds := actualTime - lastActualTime
  let simElapsedSeconds := actualElapsedSeconds * speedScale
  { actualStartTime := some actualStartTime
    lastActualTime := some actualTime
    simTime := some (simTime0 + simElapsedSeconds)
    orbiters := st.orbiters.map (fun o => o.updatePosition simElapsedSeconds) }

/-- Source: `SSGRenderer.updateAnimation` (variant 1, lines 282-332 of the
combined renderer file): the whole update is guarded by `Animate` (time is
frozen when animation is disabled); `speedScale` starts at 1 — not 0 — and
becomes `AnimationTimeScale` when `AnimationSpeed != 0` (exact
comparison). -/
def updateAnimationV1 (current : SSGSettings) (st : RendererAnim) (actualMillis : ℚ) :
    RendererAnim :=
  if current.Animate then
    let actualTime := actualMillis / 1000
    let actualStartTime := st.actualStartTime.getD actualTime
    let lastActualTime := st.lastActualTime.getD actualTime
    let simTime0 := st.simTime.getD 0
    let speedScale : ℚ := if current.AnimationSpeed ≠ 0 then current.AnimationTimeScale else 1
    let actualElapsedSeconds := actualTime - lastActualTime
    let simElapsedSeconds := actualElapsedSeconds * speedScale
    { actualStartTime := some actualStartTime
      lastActualTime := some actualTime
      simTime := some (simTime0 + simElapsedSeconds)
      orbiters := st.orbiters.map (fun o => o.updatePosition simElapsedSeconds) }
  else st

/-- The time-scale asserted by claim C5, following the spec's words: 0
whenever animation is disabled or the speed equals 0 under the
epsilon-aware comparison, and `AnimationTimeScale` otherwise.  Stated for
comparison against the embedded code. -/
def claimedTimeScale (s : SSGSettings) : ℚ :=
  if s.Animate = false
      ∨ Utils.FloatEQ (.fin s.AnimationSpeed) (.fin 0) Utils.FloatingPointEqualityEpsilon = true
  then 0
  else s.AnimationTimeScale

/-- Frame-state fixture: previous frame at time 0, simulated time 0. -/
def demoAnimState : RendererAnim :=
  { actualStartTime := some 0, lastActualTime := some 0, simTime := some 0, orbiters := [] }

/-- Settings fixture for variant 2: animation disabled but nonzero speed. -/
def demoAnimSettings : SSGSettings := { Animate := false, AnimationSpeed := 1, AnimationTimeScale := 2 }

/-- Settings fixture for variant 1: animation enabled, speed exactly 0. -/
def demoAnimSettingsV1 : SSGSettings := { Animate := true, AnimationSpeed := 0, AnimationTimeScale := 5 }

/-- Claim C5 counterexample.  Variant 2 ignores `Animate`: with animation
disabled (`Animate = false`), speed 1 and time-scale 2, one second of real
time adds 2 simulated seconds, whereas the claim's time-scale is 0, so the
claimed increment is 0.  Variant 1, with animation enabled and speed
exactly 0, adds real elapsed times 1 (its `speedScale` default) — neither
0 (the claim's plain reading) nor `AnimationTimeScale`. -/
theorem claim_C5_counterexample :
    (updateAnimationV2 demoAnimSettings demoAnimState 1000).simTime = some 2 ∧
    demoAnimSettings.Animate = false ∧
    claimedTimeScale demoAnimSettings = 0 ∧
    (updateAnimationV2 demoAnimSettings demoAnimState 1000).simTime
      ≠ some ((1000 / 1000 - 0) * claimedTimeScale demoAnimSettings + 0) ∧
    (updateAnimationV1 demoAnimSettingsV1 demoAnimState 1000).simTime = some 1 ∧
    (1 : ℚ) ≠ (1000 / 1000 - 0) * 0 ∧
    (1 : ℚ) ≠ (1000 / 1000 - 0) * demoAnimSettingsV1.AnimationTimeScale := by
  refine ⟨?_, rfl, ?_, ?_, ?_, by norm_num, ?_⟩ <;>
    norm_num [updateAnimationV2, updateAnimationV1, claimedTimeScale, demoAnimSettings,
      demoAnimSettingsV1, demoAnimState, Utils.FloatNE, Utils.FloatEQ, Utils.SimpleFloatEQ,
      Utils.FloatEQDivisor, Utils.FloatingPointEqualityEpsilon, JSNum.sub, JSNum.abs,
      JSNum.div, JSNum.le, JSNum.lt, JSNum.max, JSNum.min, JSNum.neg, JSNum.strictEq,
      JSNum.isFinite]

/-- Claim C5 amended: each frame, variant 2 adds real elapsed seconds
times a scale that is `AnimationTimeScale` when the speed differs from 0
under the epsilon-aware comparison and 0 otherwise — irrespective of
`Animate` — and feeds exactly that simulated-elapsed value to every
registered orbiter; variant 1 advances simulated time only when `Animate`
is true, with scale `AnimationTimeScale` for a speed nonzero under exact
comparison and scale 1 (not 0) for speed 0. -/
theorem claim_C5_amended_sim_time_advance
    (current : SSGSettings) (st : RendererAnim) (actualMillis : ℚ) :
    (updateAnimationV2 current st actualMillis).simTime
      = some (st.simTime.getD 0 +
          (actualMillis / 1000 - st.lastActualTime.getD (actualMillis / 1000)) *
          (if Utils.FloatNE (.fin current.AnimationSpeed) (.fin 0)
              Utils.FloatingPointEqualityEpsilon
           then current.AnimationTimeScale else 0)) ∧
    (updateAnimationV2 current st actualMillis).orbiters
      = st.orbiters.map (fun o => o.updatePosition
          ((actualMillis / 1000 - st.lastActualTime.getD (actualMillis / 1000)) *
            (if Utils.FloatNE (.fin current.AnimationSpeed) (.fin 0)
                Utils.FloatingPointEqualityEpsilon
             then current.AnimationTimeScale else 0))) ∧
    (updateAnimationV1 current st actualMillis).simTime
      = (if current.Animate then
          some (st.simTime.getD 0 +
            (actualMillis / 1000 - st.lastActualTime.getD (actualMillis / 1000)) *
            (if current.AnimationSpeed ≠ 0 then current.AnimationTimeScale else 1))
         else st.simTime) := by
  refine ⟨rfl, rfl, ?_⟩
  by_cases h : current.Animate <;> simp [updateAnimationV1, h]

/-- Model of a `THREE.Vector3` value. -/
structure Vector3 where
  x : ℚ
  y : ℚ
  z : ℚ
deriving DecidableEq, Repr

/-- Model of a `THREE.Box3` axis-aligned bounding box. -/
structure Box3 where
  min : Vector3
  max : Vector3
deriving DecidableEq, Repr

/-- `THREE.Box3.getCenter`: midpoint of min and max. -/
def Box3.getCenter (b : Box3) : Vector3 :=
  ⟨(b.min.x + b.max.x) / 2, (b.min.y + b.max.y) / 2, (b.min.z + b.max.z) / 2⟩

/-- `THREE.Box3.getSize`: max minus min componentwise. -/
def Box3.getSize (b : Box3) : Vector3 :=
  ⟨b.max.x - b.min.x, b.max.y - b.min.y, b.max.z - b.min.z⟩

/-- The camera/orbit-control outputs written by `fitCameraToObject`. -/
structure CameraFit where
  cameraPositionZ : ℚ
  cameraFar : ℚ
  controlsTarget : Vector3
  controlsMaxDistance : ℚ
deriving DecidableEq, Repr

/-- Source: `SSGRenderer.fitCameraToObject` (variant 2, lines 923-977 of
the combined renderer file).  The bounding box computed over the scene and
the world position of `lookAtTarget` (when one is set) are inputs;
`tanHalfFov` stands for `tan(fovRadians / 2)`, transcendental and hence an
input.  The orbit-control target is the look-at world position when set,
else the vector (0, 0, 0) — the box center is computed and logged but not
used for the target. -/
def fitCameraToObjectV2 (boundingBox : Box3) (canvasAspect tanHalfFov : ℚ)
    (lookAtTarget : Option Vector3) : CameraFit :=
  let offset : ℚ := 105 / 100
  let center := boundingBox.getCenter
  let size := boundingBox.getSize
  let ySize := Max.max size.y (size.x / canvasAspect)
  let cameraYDistance := |ySize / 2 / tanHalfFov| * offset
  let cameraDistance := cameraYDistance
  let minZ := boundingBox.min.z
  let cameraToFarEdge := if minZ < 0 then -minZ + cameraDistance else cameraDistance - minZ
  let lookAtVec : Vector3 :=
    match lookAtTarget with
    | some w => w
    | none => ⟨0, 0, 0⟩
  { cameraPositionZ := cameraDistance
    cameraFar := cameraToFarEdge * 3
    controlsTarget := lookAtVec
    controlsMaxDistance := cameraToFarEdge * 2 }

/-- Source: `SSGRenderer.fitCameraToObject` (variant 1, lines 334-380 of
the combined renderer file): same computation, but the orbit-control
target is the bounding-box center and there is no look-at support. -/
def fitCameraToObjectV1 (boundingBox : Box3) (canvasAspect tanHalfFov : ℚ) : CameraFit :=
  let offset : ℚ := 105 / 100
  let center := boundingBox.getCenter
  let size := boundingBox.getSize
  let ySize := Max.max size.y (size.x / canvasAspect)
  let cameraYDistance := |ySize / 2 / tanHalfFov| * offset
  let cameraDistance := cameraYDistance
  let minZ := boundingBox.min.z
  let cameraToFarEdge := if minZ < 0 then -minZ + cameraDistance else cameraDistance - minZ
  { cameraPositionZ := cameraDistance
    cameraFar := cameraToFarEdge * 3
    controlsTarget := center
    controlsMaxDistance := cameraToFarEdge * 2 }

/-- Bounding box fixture whose center (5, 0, 0) is away from the origin. -/
def demoBox : Box3 := ⟨⟨4, -1, -1⟩, ⟨6, 1, 1⟩⟩

/-- Claim C6 counterexample: in variant 2, with no look-at target set and
a bounding box centered at (5, 0, 0), the computed orbit-control target is
the origin, not the bounding-volume center as claimed. -/
theorem claim_C6_counterexample :
    (fitCameraToObjectV2 demoBox 1 1 none).controlsTarget = ⟨0, 0, 0⟩ ∧
    demoBox.getCenter = ⟨5, 0, 0⟩ ∧
    (fitCameraToObjectV2 demoBox 1 1 none).controlsTarget ≠ demoBox.getCenter := by
  refine ⟨rfl, ?_, ?_⟩ <;>
    norm_num [fitCameraToObjectV2, Box3.getCenter, demoBox, Vector3.mk.injEq]

/-- Claim C6 amended: after camera fitting, variant 2's orbit-control
target equals the look-at body's world position when a look-at target is
set and the origin (0, 0, 0) when none is set (which coincides with the
bounding-volume center exactly when that center is the origin, e.g. for a
symmetric bounding volume); variant 1 — which has no look-at support —
always uses the bounding-volume center. -/
theorem claim_C6_amended_target (b : Box3) (aspect thf : ℚ) (w : Vector3) :
    (fitCameraToObjectV2 b aspect thf (some w)).controlsTarget = w ∧
    (fitCameraToObjectV2 b aspect thf none).controlsTarget = ⟨0, 0, 0⟩ ∧
    (fitCameraToObjectV1 b aspect thf).controlsTarget = b.getCenter :=
  ⟨rfl, rfl, rfl⟩

/-- Decimal digit list of a natural number, fuel-based so that it is
structurally recursive and evaluable. -/
def natReprAux : ℕ → ℕ → List Char
  | 0, _ => []
  | fuel + 1, n =>
    if n < 10 then [Nat.digitChar n]
    else natReprAux fuel (n / 10) ++ [Nat.digitChar (n % 10)]

/-- Decimal string of a natural number (JS integral-part printing). -/
def natRepr (n : ℕ) : String := String.mk (natReprAux (n + 1) n)

/-- Three-digit zero-padded decimal string, for the fractional part. -/
def pad3 (f : ℕ) : String :=
  if f < 10 then "00" ++ natRepr f
  else if f < 100 then "0" ++ natRepr f
  else natRepr f

/-- JS `Number.prototype.toFixed(3)`: fixed-point notation with three
fractional digits, rounding to the nearest thousandth (ties away from
zero); exact for the inputs considered here. -/
def toFixed3 (q : ℚ) : String :=
  let neg := q < 0
  let m : ℤ := ⌊|q| * 1000 + 1 / 2⌋
  let n : ℕ := m.toNat
  let intPart := n / 1000
  let fracPart := n % 1000
  (if neg then "-" else "") ++ natRepr intPart ++ "." ++ pad3 fracPart

/-- Source: the `ScaleFactor` entries of `Utils.humanTime` (variant 1,
lines 1355-1397 of the combined utils file). -/
structure ScaleFactor where
  factor : ℚ
  unit : String
  singularSuffix : Option String
  pluralSuffix : Option String
deriving DecidableEq, Repr

/-- Source: the `scaleFactors` list of `Utils.humanTime` (variant 1). -/
def scaleFactorsV1 : List ScaleFactor :=
  [⟨60, "minute", none, none⟩, ⟨60, "hour", none, none⟩, ⟨24, "day", none, none⟩,
   ⟨365, "year", none, none⟩, ⟨10, "decade", none, none⟩,
   ⟨10, "centur", some "y", some "ies"⟩]

/-- Source: the `checkScale` loop of `Utils.humanTime` (variant 1): scale
while the running value strictly exceeds the next factor, stopping at the
first factor that fails; carries (value, unit, singular suffix, plural
suffix). -/
def checkScaleLoop :
    List ScaleFactor → ℚ × String × String × String → ℚ × String × String × String
  | [], st => st
  | sf :: rest, (retTime, retUnit, ss, ps) =>
    if retTime > sf.factor then
      checkScaleLoop rest (retTime / sf.factor, sf.unit, sf.singularSuffix.getD ss,
        sf.pluralSuffix.getD ps)
    else (retTime, retUnit, ss, ps)

/-- Source: `Utils.humanTime` (variant 1, lines 1355-1397): takes the
absolute value, scales through the factors, and picks the singular suffix
when the scaled value equals 1 under `FloatEQ` at epsilon 0.0005.  Note
the computed `sign` is never used in the returned string, exactly as in
the source. -/
def humanTimeV1 (totalSeconds : ℚ) : String :=
  let sign := if totalSeconds < 0 then "-" else ""
  match checkScaleLoop scaleFactorsV1 (|totalSeconds|, "second", "", "s") with
  | (retTime, retUnit, singularSuffix, pluralSuffix) =>
    toFixed3 retTime ++ " " ++ retUnit ++
      (if Utils.FloatEQ (.fin retTime) (.fin 1) (5 / 10000) then singularSuffix
       else pluralSuffix)

/-- Source: the `scaleFactors` list of `Utils.humanTime` (variant 2, lines
1645-1675 of the combined utils file). -/
def scaleFactorsV2 : List (ℚ × String) :=
  [(60, "minute"), (60, "hour"), (24, "day"), (365, "year"), (10, "decade"), (10, "century")]

/-- Source: the `nextScale` loop of `Utils.humanTime` (variant 2). -/
def nextScaleLoop : List (ℚ × String) → ℚ × String → ℚ × String
  | [], st => st
  | (factor, newUnit) :: rest, (retTime, retUnit) =>
    if retTime > factor then nextScaleLoop rest (retTime / factor, newUnit)
    else (retTime, retUnit)

/-- Source: `Utils.humanTime` (variant 2, lines 1645-1675): no absolute
value, initial unit the plural "seconds", and an unconditional extra
pluralizing `s` unless the value is exactly 1. -/
def humanTimeV2 (totalSeconds : ℚ) : String :=
  match nextScaleLoop scaleFactorsV2 (totalSeconds, "seconds") with
  | (retTime, retUnit) =>
    toFixed3 retTime ++ " " ++ retUnit ++ (if retTime = 1 then "" else "s")

lemma humanTimeV1_59 : humanTimeV1 59 = "59.000 seconds" := by
  norm_num [humanTimeV1, checkScaleLoop, scaleFactorsV1, toFixed3, pad3,
    Utils.FloatEQ, Utils.SimpleFloatEQ, Utils.FloatEQDivisor,
    JSNum.sub, JSNum.abs, JSNum.div, JSNum.le, JSNum.max, JSNum.min,
    JSNum.neg, JSNum.lt, JSNum.strictEq, JSNum.isFinite]
  decide

lemma humanTimeV1_60 : humanTimeV1 60 = "60.000 seconds" := by
  norm_num [humanTimeV1, checkScaleLoop, scaleFactorsV1, toFixed3, pad3,
    Utils.FloatEQ, Utils.SimpleFloatEQ, Utils.FloatEQDivisor,
    JSNum.sub, JSNum.abs, JSNum.div, JSNum.le, JSNum.max, JSNum.min,
    JSNum.neg, JSNum.lt, JSNum.strictEq, JSNum.isFinite]
  decide

lemma humanTimeV1_3661 : humanTimeV1 3661 = "1.017 hours" := by
  norm_num [humanTimeV1, checkScaleLoop, scaleFactorsV1, toFixed3, pad3,
    Utils.FloatEQ, Utils.SimpleFloatEQ, Utils.FloatEQDivisor,
    JSNum.sub, JSNum.abs, JSNum.div, JSNum.le, JSNum.max, JSNum.min,
    JSNum.neg, JSNum.lt, JSNum.strictEq, JSNum.isFinite]
  rw [show |(3661:ℚ)/3600| = 3661/3600 from abs_of_pos (by norm_num)]
  rw [show |(61:ℚ)/3600| = 61/3600 from abs_of_pos (by norm_num)]
  norm_num
  decide

lemma humanTimeV1_neg60 : humanTimeV1 (-60) = "60.000 seconds" := by
  norm_num [humanTimeV1, checkScaleLoop, scaleFactorsV1, toFixed3, pad3,
    Utils.FloatEQ, Utils.SimpleFloatEQ, Utils.FloatEQDivisor,
    JSNum.sub, JSNum.abs, JSNum.div, JSNum.le, JSNum.max, JSNum.min,
    JSNum.neg, JSNum.lt, JSNum.strictEq, JSNum.isFinite]
  decide

lemma humanTimeV2_59 : humanTimeV2 59 = "59.000 secondss" := by
  norm_num [humanTimeV2, nextScaleLoop, scaleFactorsV2, toFixed3, pad3]
  decide

lemma humanTimeV2_60 : humanTimeV2 60 = "60.000 secondss" := by
  norm_num [humanTimeV2, nextScaleLoop, scaleFactorsV2, toFixed3, pad3]
  decide

lemma humanTimeV2_3661 : humanTimeV2 3661 = "1.017 hours" := by
  norm_num [humanTimeV2, nextScaleLoop, scaleFactorsV2, toFixed3, pad3]
  rw [show |(3661:ℚ)/3600| = 3661/3600 from abs_of_pos (by norm_num)]
  norm_num
  decide

lemma humanTimeV2_neg60 : humanTimeV2 (-60) = "-60.000 secondss" := by
  norm_num [humanTimeV2, nextScaleLoop, scaleFactorsV2, toFixed3, pad3]
  decide

/-- Claim C7 counterexample: `humanTime(60)` is "60.000 seconds" in
variant 1 — the scale step requires the value to strictly exceed the
factor, so 60 seconds never becomes "1.000 minute" — and
"60.000 secondss" in variant 2; and `humanTime(-60)` is "60.000 seconds"
in variant 1 (the computed sign is never used in the returned string) and
"-60.000 secondss" in variant 2: in neither variant a negative-signed
minute-scale string. -/
theorem claim_C7_counterexample :
    humanTimeV1 60 = "60.000 seconds" ∧ humanTimeV1 60 ≠ "1.000 minute" ∧
    humanTimeV2 60 = "60.000 secondss" ∧
    humanTimeV1 (-60) = "60.000 seconds" ∧
    humanTimeV2 (-60) = "-60.000 secondss" := by
  refine ⟨humanTimeV1_60, ?_, humanTimeV2_60, humanTimeV1_neg60, humanTimeV2_neg60⟩
  rw [humanTimeV1_60]
  decide

/-- Claim C7 amended per the code: `humanTime(59)` is "59.000 seconds" in
variant 1 (variant 2 appends a spurious second "s": "59.000 secondss");
`humanTime(60)` stays at the seconds scale, "60.000 seconds" in variant 1,
because scaling requires strictly exceeding the factor; `humanTime(3661)`
is the hour-scale "1.017 hours" in both variants; and `humanTime(-60)` is
seconds-scale: "60.000 seconds" — unsigned, the computed sign is dropped —
in variant 1, and "-60.000 secondss" in variant 2. -/
theorem claim_C7_amended_humanTime :
    humanTimeV1 59 = "59.000 seconds" ∧
    humanTimeV1 60 = "60.000 seconds" ∧
    humanTimeV1 3661 = "1.017 hours" ∧
    humanTimeV2 3661 = "1.017 hours" ∧
    humanTimeV1 (-60) = "60.000 seconds" ∧
    humanTimeV2 59 = "59.000 secondss" ∧
    humanTimeV2 (-60) = "-60.000 secondss" :=
  ⟨humanTimeV1_59, humanTimeV1_60, humanTimeV1_3661, humanTimeV2_3661,
    humanTimeV1_neg60, humanTimeV2_59, humanTimeV2_neg60⟩

/-- The JSON-payload shape consumed by the `CelestialObject` constructor: a
node's scalar fields (a representative subset of those `Object.assign`
copies) and its ordered child payloads. -/
inductive CelestialData where
  | mk (Name : String) (IsStar : Bool) (ObjectRadius : ℚ) (ObjectColor : String)
      (ChildObjects : List CelestialData)

/-- A constructed `CelestialObject` node.  The constructor's object graph
is modelled as a finite node table; object references — `ParentObject`,
the entries of `ChildObjects`, and the `Obj3D` scene handle — are indices
or handles rather than pointers. -/
structure CelestialObject where
  Name : String
  IsStar : Bool
  ObjectRadius : ℚ
  ObjectColor : String
  ParentObject : Option ℕ
  ChildObjects : List ℕ
  Obj3D : Option ℕ
deriving DecidableEq, Repr, Inhabited

/-- Node lookup in the table (the default node stands for an invalid
reference: no parent, no children). -/
def nodeAt (ns : List CelestialObject) (i : ℕ) : CelestialObject :=
  (ns[i]?).getD default

/-- Overwrite node `i`'s `ChildObjects` list (the constructor's
`this.ChildObjects.push(childObject)` accumulated over the loop). -/
def setChildren (ns : List CelestialObject) (i : ℕ) (cs : List ℕ) :
    List CelestialObject :=
  ns.set i { nodeAt ns i with ChildObjects := cs }

/-- The node the constructor creates before its child loop runs:
scalar fields copied from the payload, `ParentObject` as assigned by the
enclosing constructor call, `ChildObjects` reset to empty. -/
def mkNode (name : String) (star : Bool) (radius : ℚ) (color : String)
    (parent : Option ℕ) : CelestialObject :=
  { Name := name, IsStar := star, ObjectRadius := radius, ObjectColor := color,
    ParentObject := parent, ChildObjects := [], Obj3D := none }

/-- Source: the `CelestialObject` constructor (`celestial-object.js`, and
its guarded twin) — `Object.assign` copies the scalar fields,
`ChildObjects` is reset to `[]`, then each child payload is constructed
recursively, gets `ParentObject = this`, and is pushed onto
`ChildObjects`.  Modelled as preorder construction of a node table:
`buildMany ps parent acc` appends the nodes for the payloads `ps` and all
their descendants to the table `acc`, with each root's `ParentObject` set
to `parent`, and returns the extended table together with the indices of
the roots built from `ps`, in order. -/
def buildMany (ps : List CelestialData) (parent : Option ℕ)
    (acc : List CelestialObject) : List CelestialObject × List ℕ :=
  match ps with
  | [] => (acc, [])
  | .mk name star radius color children :: rest =>
    let idx := acc.length
    let acc1 := acc ++ [mkNode name star radius color parent]
    let r1 := buildMany children (some idx) acc1
    let acc2 := setChildren r1.1 idx r1.2
    let r2 := buildMany rest parent acc2
    (r2.1, idx :: r2.2)
termination_by sizeOf ps

/-- Number of nodes described by a list of payloads (each payload counts
itself plus all of its descendants). -/
def sizeNodes (ps : List CelestialData) : ℕ :=
  match ps with
  | [] => 0
  | .mk _ _ _ _ children :: rest => 1 + sizeNodes children + sizeNodes rest
termination_by sizeOf ps

/-- Source: `new CelestialObject(solarSystemPartial)` — the whole tree
built from the root payload; node 0 is the root. -/
def buildTree (p : CelestialData) : List CelestialObject :=
  (buildMany [p] none []).1

/-- Source: the per-body settings reaction of `buildSolarSystem`
restricted to its mutations of `CelestialObject` state: the node's
`Obj3D` handle is removed and rebuilt.  No other `CelestialObject` field
is ever written after construction anywhere in the renderer. -/
def applyGeomReaction (ns : List CelestialObject) (i : ℕ) (newObj : Option ℕ) :
    List CelestialObject :=
  ns.set i { nodeAt ns i with Obj3D := newObj }

lemma nodeAt_append_left (l l2 : List CelestialObject) (k : ℕ) (h : k < l.length) :
    nodeAt (l ++ l2) k = nodeAt l k := by
  unfold nodeAt
  rw [List.getElem?_append, if_pos h]

lemma nodeAt_append_concat (l : List CelestialObject) (x : CelestialObject) :
    nodeAt (l ++ [x]) l.length = x := by
  unfold nodeAt
  rw [List.getElem?_concat_length]
  rfl

lemma nodeAt_setChildren_ne (ns : List CelestialObject) (i k : ℕ) (cs : List ℕ)
    (h : k ≠ i) : nodeAt (setChildren ns i cs) k = nodeAt ns k := by
  unfold setChildren nodeAt
  rw [List.getElem?_set_ne (fun hh => h hh.symm)]

lemma nodeAt_setChildren_self (ns : List CelestialObject) (i : ℕ) (cs : List ℕ)
    (h : i < ns.length) :
    nodeAt (setChildren ns i cs) i = { nodeAt ns i with ChildObjects := cs } := by
  unfold setChildren nodeAt
  rw [List.getElem?_set_self h]
  rfl

lemma length_setChildren (ns : List CelestialObject) (i : ℕ) (cs : List ℕ) :
    (setChildren ns i cs).length = ns.length := by
  simp [setChildren]

lemma nodeAt_of_ge (ns : List CelestialObject) (k : ℕ) (h : ns.length ≤ k) :
    nodeAt ns k = default := by
  unfold nodeAt
  rw [List.getElem?_eq_none h]
  rfl

/-- The construction invariant, established for every intermediate call:
(1) the table only grows; (2) nodes below the starting length are
untouched; (3) each returned root index is a new node whose parent is the
passed parent; (4) every child link out of a new node points forward to a
new node whose parent link points back; (5) every new node that is not a
returned root has a parent among the new nodes whose child list contains
it. -/
def BuildSpec (ps : List CelestialData) (parent : Option ℕ)
    (acc : List CelestialObject) : Prop :=
  (buildMany ps parent acc).1.length = acc.length + sizeNodes ps ∧
  (∀ k, k < acc.length → nodeAt (buildMany ps parent acc).1 k = nodeAt acc k) ∧
  (∀ i ∈ (buildMany ps parent acc).2, acc.length ≤ i ∧
    i < (buildMany ps parent acc).1.length ∧
    (nodeAt (buildMany ps parent acc).1 i).ParentObject = parent) ∧
  (∀ j, acc.length ≤ j → ∀ c ∈ (nodeAt (buildMany ps parent acc).1 j).ChildObjects,
    j < c ∧ c < (buildMany ps parent acc).1.length ∧
    (nodeAt (buildMany ps parent acc).1 c).ParentObject = some j) ∧
  (∀ c, acc.length ≤ c → c < (buildMany ps parent acc).1.length →
    c ∉ (buildMany ps parent acc).2 →
    ∃ j, acc.length ≤ j ∧ j < (buildMany ps parent acc).1.length ∧
      (nodeAt (buildMany ps parent acc).1 c).ParentObject = some j ∧
      c ∈ (nodeAt (buildMany ps parent acc).1 j).ChildObjects)

lemma buildMany_spec_nil (parent : Option ℕ) (acc : List CelestialObject) :
    BuildSpec [] parent acc := by
  unfold BuildSpec
  have h0 : sizeNodes ([] : List CelestialData) = 0 := by simp only [sizeNodes]
  simp only [buildMany]
  refine ⟨by omega, by simp, by simp, ?_, ?_⟩
  · intro j hj c hc
    rw [nodeAt_of_ge acc j hj] at hc
    have hd : (default : CelestialObject).ChildObjects = [] := rfl
    rw [hd] at hc
    exact absurd hc (List.not_mem_nil c)
  · intro c hc1 hc2 _
    omega

lemma buildMany_spec_cons (name : String) (star : Bool) (radius : ℚ) (color : String)
    (children rest : List CelestialData) (parent : Option ℕ) (acc : List CelestialObject)
    (ih1 : BuildSpec children (some acc.length)
      (acc ++ [mkNode name star radius color parent]))
    (ih3 : BuildSpec rest parent
      (setChildren
        (buildMany children (some acc.length)
          (acc ++ [mkNode name star radius color parent])).1 acc.length
        (buildMany children (some acc.length)
          (acc ++ [mkNode name star radius color parent])).2)) :
    BuildSpec (.mk name star radius color children :: rest) parent acc := by
  unfold BuildSpec at ih1 ih3 ⊢
  have key : buildMany (CelestialData.mk name star radius color children :: rest) parent acc
      = ((buildMany rest parent
            (setChildren
              (buildMany children (some acc.length)
                (acc ++ [mkNode name star radius color parent])).1 acc.length
              (buildMany children (some acc.length)
                (acc ++ [mkNode name star radius color parent])).2)).1,
          acc.length ::
            (buildMany rest parent
              (setChildren
                (buildMany children (some acc.length)
                  (acc ++ [mkNode name star radius color parent])).1 acc.length
                (buildMany children (some acc.length)
                  (acc ++ [mkNode name star radius color parent])).2)).2) := by
    simp only [buildMany]
  rw [key]
  dsimp only
  set A1 := acc ++ [mkNode name star radius color parent] with hA1
  set R1 := buildMany children (some acc.length) A1 with hR1
  set A2 := setChildren R1.1 acc.length R1.2 with hA2
  set R2 := buildMany rest parent A2 with hR2
  obtain ⟨c1len, c1pre, c1roots, c1pc, c1nr⟩ := ih1
  obtain ⟨r3len, r3pre, r3roots, r3pc, r3nr⟩ := ih3
  have hsz : sizeNodes (CelestialData.mk name star radius color children :: rest)
      = 1 + sizeNodes children + sizeNodes rest := by simp only [sizeNodes]
  have lenA1 : A1.length = acc.length + 1 := by simp [hA1]
  have lenA2 : A2.length = R1.1.length := by rw [hA2]; exact length_setChildren _ _ _
  have idxltR1 : acc.length < R1.1.length := by omega
  have nodeIdxA1 : nodeAt A1 acc.length = mkNode name star radius color parent := by
    rw [hA1]; exact nodeAt_append_concat acc _
  have nodeIdxR1 : nodeAt R1.1 acc.length = mkNode name star radius color parent := by
    rw [c1pre acc.length (by omega), nodeIdxA1]
  have nodeIdxA2 : nodeAt A2 acc.length
      = { mkNode name star radius color parent with ChildObjects := R1.2 } := by
    rw [hA2, nodeAt_setChildren_self _ _ _ idxltR1, nodeIdxR1]
  have nodeIdxR2 : nodeAt R2.1 acc.length
      = { mkNode name star radius color parent with ChildObjects := R1.2 } := by
    rw [r3pre acc.length (by omega), nodeIdxA2]
  have nodeIdxR2Child : (nodeAt R2.1 acc.length).ChildObjects = R1.2 := by
    rw [nodeIdxR2]
  have nodeIdxR2Parent : (nodeAt R2.1 acc.length).ParentObject = parent := by
    rw [nodeIdxR2]
    rfl
  have trans_hi : ∀ k, A1.length ≤ k → k < A2.length → nodeAt R2.1 k = nodeAt R1.1 k := by
    intro k hk1 hk2
    rw [r3pre k hk2, hA2, nodeAt_setChildren_ne _ _ _ _ (by omega)]
  have trans_low : ∀ k, k < acc.length → nodeAt R2.1 k = nodeAt acc k := by
    intro k hk
    rw [r3pre k (by omega), hA2, nodeAt_setChildren_ne _ _ _ _ (by omega),
      c1pre k (by omega), hA1, nodeAt_append_left _ _ _ hk]
  refine ⟨by omega, trans_low, ?_, ?_, ?_⟩
  · -- roots
    intro i hi
    rcases List.mem_cons.mp hi with h | h
    · subst h
      exact ⟨le_refl _, by omega, nodeIdxR2Parent⟩
    · obtain ⟨h1, h2, h3⟩ := r3roots i h
      exact ⟨by omega, h2, h3⟩
  · -- child links point forward, parent points back
    intro j hj c hc
    by_cases hjA2 : j < A2.length
    · by_cases hji : j = acc.length
      · subst hji
        rw [nodeIdxR2Child] at hc
        obtain ⟨h1, h2, h3⟩ := c1roots c hc
        refine ⟨by omega, by omega, ?_⟩
        rw [trans_hi c h1 (by omega), h3]
      · have hjA1 : A1.length ≤ j := by omega
        rw [trans_hi j hjA1 hjA2] at hc
        obtain ⟨h1, h2, h3⟩ := c1pc j hjA1 c hc
        refine ⟨h1, by omega, ?_⟩
        rw [trans_hi c (by omega) (by omega), h3]
    · obtain ⟨h1, h2, h3⟩ := r3pc j (by omega) c hc
      exact ⟨h1, h2, h3⟩
  · -- every new non-root node is listed by its parent
    intro c hc1 hc2 hc3
    have hcne : c ≠ acc.length := fun hh => hc3 (hh ▸ List.mem_cons_self _ _)
    have hcR2 : c ∉ R2.2 := fun hh => hc3 (List.mem_cons_of_mem _ hh)
    by_cases hcA2 : c < A2.length
    · have hcA1 : A1.length ≤ c := by omega
      by_cases hcR12 : c ∈ R1.2
      · obtain ⟨h1, h2, h3⟩ := c1roots c hcR12
        refine ⟨acc.length, le_refl _, by omega, ?_, ?_⟩
        · rw [trans_hi c hcA1 hcA2, h3]
        · rw [nodeIdxR2Child]
          exact hcR12
      · obtain ⟨j, hj1, hj2, hj3, hj4⟩ := c1nr c hcA1 (by omega) hcR12
        refine ⟨j, by omega, by omega, ?_, ?_⟩
        · rw [trans_hi c hcA1 hcA2, hj3]
        · rw [trans_hi j hj1 (by omega)]
          exact hj4
    · obtain ⟨j, hj1, hj2, hj3, hj4⟩ := r3nr c (by omega) hc2 hcR2
      exact ⟨j, by omega, hj2, hj3, hj4⟩

lemma buildMany_spec (ps : List CelestialData) (parent : Option ℕ)
    (acc : List CelestialObject) : BuildSpec ps parent acc := by
  induction ps, parent, acc using buildMany.induct with
  | case1 parent acc => exact buildMany_spec_nil parent acc
  | case2 parent acc name star radius color children rest idx acc1 r1 acc2 ih1 ih1d ih3 =>
    exact buildMany_spec_cons name star radius color children rest parent acc ih1d ih3

lemma buildTree_snd (p : CelestialData) :
    (buildMany [p] none ([] : List CelestialObject)).2 = [0] := by
  cases p with
  | mk name star radius color children =>
    simp only [buildMany]
    simp

/-- The back-reference state of a node: its parent link and child links. -/
def linkOf (nd : CelestialObject) : Option ℕ × List ℕ :=
  (nd.ParentObject, nd.ChildObjects)

lemma applyGeomReaction_links (ns : List CelestialObject) (i : ℕ) (g : Option ℕ) :
    (applyGeomReaction ns i g).map linkOf = ns.map linkOf := by
  induction ns generalizing i with
  | nil => rfl
  | cons a rest ih =>
    cases i with
    | zero =>
      simp [applyGeomReaction, nodeAt, linkOf]
    | succ n =>
      have hstep := ih n
      simp only [applyGeomReaction, nodeAt, List.getElem?_cons_succ, List.set_cons_succ,
        List.map_cons] at hstep ⊢
      rw [hstep]

/-- Claim C9: in the tree built by the `CelestialObject` constructor from
a parsed payload, (i) every child link points forward (strictly larger
index — hence the parent/child graph is acyclic, and it is finite, being a
list of nodes) to an in-range node whose `ParentObject` refers back to the
linking node; (ii) no node is listed as a child of two distinct nodes, so
the parent is exactly the node whose `ChildObjects` contains it; (iii) the
root has no parent; (iv) every non-root node's `ParentObject` is a node
whose `ChildObjects` lists it; (v) the only post-construction mutation of
`CelestialObject` state — the geometry reaction's `Obj3D` rebuild — leaves
every node's `ParentObject` and `ChildObjects` unchanged, so the links
established at construction are never reassigned. -/
theorem claim_C9_parent_links (p : CelestialData) :
    (∀ j c, c ∈ (nodeAt (buildTree p) j).ChildObjects →
      j < c ∧ c < (buildTree p).length ∧
      (nodeAt (buildTree p) c).ParentObject = some j) ∧
    (∀ c j j', c ∈ (nodeAt (buildTree p) j).ChildObjects →
      c ∈ (nodeAt (buildTree p) j').ChildObjects → j = j') ∧
    (nodeAt (buildTree p) 0).ParentObject = none ∧
    (∀ c, c < (buildTree p).length → c ≠ 0 →
      ∃ j, (nodeAt (buildTree p) c).ParentObject = some j ∧
        c ∈ (nodeAt (buildTree p) j).ChildObjects ∧ j < c) ∧
    (∀ i g, (applyGeomReaction (buildTree p) i g).map linkOf
      = (buildTree p).map linkOf) := by
  obtain ⟨slen, spre, sroots, spc, snr⟩ := buildMany_spec [p] none []
  have hpc : ∀ j c, c ∈ (nodeAt (buildTree p) j).ChildObjects →
      j < c ∧ c < (buildTree p).length ∧
      (nodeAt (buildTree p) c).ParentObject = some j :=
    fun j c hc => spc j (Nat.zero_le j) c hc
  refine ⟨hpc, ?_, ?_, ?_, fun i g => applyGeomReaction_links (buildTree p) i g⟩
  · intro c j j' hj hj'
    have h1 := (hpc j c hj).2.2
    have h2 := (hpc j' c hj').2.2
    rw [h1] at h2
    exact Option.some_injective _ h2
  · have h0 : (0 : ℕ) ∈ (buildMany [p] none ([] : List CelestialObject)).2 := by
      rw [buildTree_snd]
      exact List.mem_singleton.mpr rfl
    exact (sroots 0 h0).2.2
  · intro c hc hc0
    have hcnot : c ∉ (buildMany [p] none ([] : List CelestialObject)).2 := by
      rw [buildTree_snd]
      simpa using hc0
    obtain ⟨j, _, _, hj3, hj4⟩ := snr c (Nat.zero_le c) hc hcnot
    exact ⟨j, hj3, hj4, (hpc j c hj4).1⟩

/-- Two-body payload: a star with one orbiting planet. -/
def demoSystem : CelestialData :=
  .mk "sun" true 100 "#ffff00" [.mk "earth" false 1 "#0000ff" []]

/-- Witness for claim C9 at the two-body payload: node 1 (the planet) is a
non-root node of the two-node table, so the claim instantiates to: the
planet's `ParentObject` refers to a node that lists it as a child, at a
strictly smaller index (hence node 0, the star). -/
theorem claim_C9_witness :
    ((1 : ℕ) < (buildTree demoSystem).length ∧ (1 : ℕ) ≠ 0) ∧
    (∃ j, (nodeAt (buildTree demoSystem) 1).ParentObject = some j ∧
      1 ∈ (nodeAt (buildTree demoSystem) j).ChildObjects ∧ j < 1) := by
  have h2 : sizeNodes [demoSystem] = 2 := by simp only [sizeNodes, demoSystem]
  have h := (buildMany_spec [demoSystem] none []).1
  rw [h2] at h
  have hlen : (buildTree demoSystem).length = 2 := by
    show (buildMany [demoSystem] none []).1.length = 2
    rw [h]
    rfl
  exact ⟨⟨by omega, by decide⟩,
    (claim_C9_parent_links demoSystem).2.2.2.1 1 (by omega) (by decide)⟩

end SSG
